import Mathlib

/-!
Shallow embedding of `sipsimple/primitives.py`: the `Registration`,
`Message` and `Publication` session classes and their notification
handlers. Python exceptions are modelled by `Except PyError`; side
effects (observer subscription, request cancellation, posted
notifications) are collected in an explicit effect list. Python object
identity of requests (`is` comparisons) is modelled by a numeric `id`
field allocated freshly, via a `next_id` counter in each session state,
every time a `Request` is constructed.
-/

set_option autoImplicit false

namespace SipSimple

/-- Python exceptions raised by the code paths under study. -/
inductive PyError where
  | valueError : String → PyError
  | publicationError : String → PyError
  | runtimeError : String → PyError
  | keyError : String → PyError
  | sendError : PyError
deriving DecidableEq, Repr

/-- One outgoing SIP request, as constructed via
`Request(method, from, to, target, route, credentials=..., contact_uri=...,
call_id=..., cseq=..., extra_headers=..., content_type=..., body=...)`.
Only the fields the sessions read back are kept. `id` models Python
object identity. -/
structure Request where
  id : Nat
  method : String
  call_id : Option String
  cseq : Nat
  contact_uri : Option String
  route : String
  extra_headers : List (String × String)
  content_type : Option String
  body : Option String
deriving DecidableEq, Repr

/-- Payloads of the `NotificationData` objects the sessions post. -/
inductive NData where
  | empty
  | expired : Bool → NData
  | regSucceeded : Nat → String → Option String → String → Nat → String → NData
  | failed : Nat → String → String → NData
  | didNotEnd : Nat → String → NData
  | willExpire : Nat → NData
  | pubSucceeded : Nat → String → Nat → String → NData
  | msgFailed : Nat → String → NData
deriving DecidableEq, Repr

/-- Observable side effects of one session operation, in program order:
observer (un)subscription keyed by request identity, `request.end()`
calls, and posted notifications. -/
inductive Effect where
  | addObserver : Nat → Effect
  | removeObserver : Nat → Effect
  | endRequest : Nat → Effect
  | notify : String → NData → Effect
deriving DecidableEq, Repr

/-- Decidable equality for `Except`, needed to evaluate concrete
outcomes. -/
def exceptDecEq {α β : Type} [DecidableEq α] [DecidableEq β] :
    (a b : Except α β) → Decidable (a = b)
  | Except.error a, Except.error b =>
      if h : a = b then Decidable.isTrue (by rw [h])
      else Decidable.isFalse (by intro he; cases he; exact h rfl)
  | Except.error _, Except.ok _ => Decidable.isFalse (by intro h; cases h)
  | Except.ok _, Except.error _ => Decidable.isFalse (by intro h; cases h)
  | Except.ok a, Except.ok b =>
      if h : a = b then Decidable.isTrue (by rw [h])
      else Decidable.isFalse (by intro he; cases he; exact h rfl)

instance {α β : Type} [DecidableEq α] [DecidableEq β] : DecidableEq (Except α β) :=
  exceptDecEq

/-- Result of running one Python method: the returned/raised outcome, the
session state afterwards, and the effects emitted along the way. On an
error the state still carries every mutation made before the raise. -/
structure Outcome (σ : Type) where
  res : Except PyError Unit
  state : σ
  effects : List Effect
deriving DecidableEq, Repr

/-- Python `a or b` on two optional request references. -/
def pyOr (a b : Option Request) : Option Request :=
  match a with
  | some x => some x
  | none => b

/-- Python dict lookup returning an option (`d.get(k, None)`). -/
def lookupHeader (hs : List (String × String)) (k : String) : Option String :=
  match hs.find? (fun p => p.1 == k) with
  | some p => some p.2
  | none => none

/-- Modelled from the spec: `Request.send` is implemented in
`sipsimple.core`, which is not under `src/`. Per the spec a transaction's
call-id "may be absent on first use" and is a fixed identity thereafter,
so a successful send fixes, for a request built without a call-id, the
call-id the engine chose; a request built with an inherited call-id keeps
it. -/
def engineSend (r : Request) (engine_call_id : String) : Request :=
  match r.call_id with
  | some _ => r
  | none => { r with call_id := some engine_call_id }

/-- State of one `Registration` instance (`Registration.__init__`). -/
structure RegState where
  uri : String
  credentials : Option String
  duration : Nat
  current_request : Option Request
  last_request : Option Request
  unregistering : Bool
  next_id : Nat
deriving DecidableEq, Repr

namespace Registration

/-- `Registration.__init__(uri, credentials=None, duration=300)`. -/
def init (uri : String) (credentials : Option String) (duration : Nat) : RegState :=
  { uri := uri, credentials := credentials, duration := duration,
    current_request := none, last_request := none,
    unregistering := false, next_id := 0 }

end Registration

/-- `request is self._current_request`, via the identity field. -/
def RegState.isCurrent (s : RegState) (req : Request) : Bool :=
  match s.current_request with
  | some c => req.id == c.id
  | none => false

/-- `request is self._last_request`, via the identity field. -/
def RegState.isLast (s : RegState) (req : Request) : Bool :=
  match s.last_request with
  | some l => req.id == l.id
  | none => false

namespace Registration

/-- The `Request(...)` construction inside
`Registration._make_and_send_request`: call-id and cseq come from
`self._current_request or self._last_request` when that is non-`None`
(inherit the call-id, increment the cseq); otherwise `call_id=None`,
`cseq=1`. `Expires` is the duration for a register, `0` for an
unregister. -/
def built_request (s : RegState) (contact_uri : Option String) (route : String)
    (do_register : Bool) : Request :=
  match pyOr s.current_request s.last_request with
  | some prev =>
      { id := s.next_id, method := "REGISTER", call_id := prev.call_id,
        cseq := prev.cseq + 1, contact_uri := contact_uri, route := route,
        extra_headers := [("Expires", toString (if do_register then s.duration else 0))],
        content_type := none, body := none }
  | none =>
      { id := s.next_id, method := "REGISTER", call_id := none,
        cseq := 1, contact_uri := contact_uri, route := route,
        extra_headers := [("Expires", toString (if do_register then s.duration else 0))],
        content_type := none, body := none }

/-- `Registration._make_and_send_request`: build the request, subscribe
the observer, end and forget any in-flight request, then send; if the
send raises, unsubscribe and re-raise, otherwise record the intent flag
and the new current request. `send_ok` models whether `request.send`
raises. -/
def make_and_send_request (s : RegState) (contact_uri : Option String) (route : String)
    (send_ok : Bool) (do_register : Bool) (engine_call_id : String) : Outcome RegState :=
  let req := built_request s contact_uri route do_register
  let endEffs : List Effect :=
    match s.current_request with
    | some c => [Effect.endRequest c.id]
    | none => []
  let s1 : RegState := { s with current_request := none, next_id := s.next_id + 1 }
  if send_ok then
    { res := Except.ok (),
      state := { s1 with unregistering := !do_register,
                         current_request := some (engineSend req engine_call_id) },
      effects := Effect.addObserver req.id :: endEffs }
  else
    { res := Except.error PyError.sendError,
      state := s1,
      effects := Effect.addObserver req.id :: endEffs ++ [Effect.removeObserver req.id] }

/-- `Registration.register(contact_uri, route, timeout=None)`. -/
def registerOp (s : RegState) (contact_uri : String) (route : String)
    (send_ok : Bool) (engine_call_id : String) : Outcome RegState :=
  make_and_send_request s (some contact_uri) route send_ok true engine_call_id

/-- `Registration.end(timeout=None)`: silently return if nothing was
registered, otherwise send a zero-`Expires` request reusing the last
request's contact and route, then post `SIPRegistrationWillEnd` (skipped
when the send raised, since the exception propagates first). -/
def endOp (s : RegState) (send_ok : Bool) (engine_call_id : String) : Outcome RegState :=
  match s.last_request with
  | none => { res := Except.ok (), state := s, effects := [] }
  | some lastReq =>
      let o := make_and_send_request s lastReq.contact_uri lastReq.route send_ok false engine_call_id
      match o.res with
      | Except.ok _ =>
          { res := Except.ok (), state := o.state,
            effects := o.effects ++ [Effect.notify "SIPRegistrationWillEnd" NData.empty] }
      | Except.error e => { res := Except.error e, state := o.state, effects := o.effects }

/-- `Registration._NH_SIPRequestDidSucceed`: stale events return at once;
a teardown success retires the last request and posts `DidEnd`; a
registration success promotes the request to `last_request` and posts
`DidSucceed`. The source guards the `headers["Contact"]` dict lookup with
`except IndexError`, but a missing dict key raises `KeyError`, which that
clause does not catch, so the handler propagates it (after the state
mutations already made). -/
def didSucceed (s : RegState) (req : Request) (code : Nat) (reason : String)
    (headers : List (String × String)) (expires : Nat) : Outcome RegState :=
  if s.isCurrent req then
    let s1 : RegState := { s with current_request := none }
    if s.unregistering then
      match s.last_request with
      | some l =>
          { res := Except.ok (),
            state := { s1 with last_request := none },
            effects := [Effect.endRequest l.id,
                        Effect.notify "SIPRegistrationDidEnd" (NData.expired false)] }
      | none =>
          { res := Except.ok (), state := s1,
            effects := [Effect.notify "SIPRegistrationDidEnd" (NData.expired false)] }
    else
      let s2 : RegState := { s1 with last_request := some req }
      match lookupHeader headers "Contact" with
      | some contacts =>
          { res := Except.ok (), state := s2,
            effects := [Effect.notify "SIPRegistrationDidSucceed"
              (NData.regSucceeded code reason req.contact_uri contacts expires req.route)] }
      | none =>
          { res := Except.error (PyError.keyError "Contact"), state := s2, effects := [] }
  else { res := Except.ok (), state := s, effects := [] }

/-- `Registration._NH_SIPRequestDidFail`: stale events return at once;
otherwise clear the current request and post `DidNotEnd` or `DidFail`
depending on the teardown intent. -/
def didFail (s : RegState) (req : Request) (code : Nat) (reason : String) : Outcome RegState :=
  if s.isCurrent req then
    let s1 : RegState := { s with current_request := none }
    if s.unregistering then
      { res := Except.ok (), state := s1,
        effects := [Effect.notify "SIPRegistrationDidNotEnd" (NData.didNotEnd code reason)] }
    else
      { res := Except.ok (), state := s1,
        effects := [Effect.notify "SIPRegistrationDidFail" (NData.failed code reason req.route)] }
  else { res := Except.ok (), state := s, effects := [] }

/-- `Registration._NH_SIPRequestWillExpire`: only meaningful for the
confirmed (`last`) request. -/
def willExpire (s : RegState) (req : Request) (expires : Nat) : Outcome RegState :=
  if s.isLast req then
    { res := Except.ok (), state := s,
      effects := [Effect.notify "SIPRegistrationWillExpire" (NData.willExpire expires)] }
  else { res := Except.ok (), state := s, effects := [] }

/-- `Registration._NH_SIPRequestDidEnd`: always unsubscribe from the
ending request; if it was the confirmed one, clear it, cancel any stray
in-flight request and post `DidEnd(expired=True)`. -/
def didEnd (s : RegState) (req : Request) : Outcome RegState :=
  if s.isLast req then
    let s1 : RegState := { s with last_request := none }
    match s.current_request with
    | some c =>
        { res := Except.ok (),
          state := { s1 with current_request := none },
          effects := [Effect.removeObserver req.id, Effect.endRequest c.id,
                      Effect.notify "SIPRegistrationDidEnd" (NData.expired true)] }
    | none =>
        { res := Except.ok (), state := s1,
          effects := [Effect.removeObserver req.id,
                      Effect.notify "SIPRegistrationDidEnd" (NData.expired true)] }
  else { res := Except.ok (), state := s, effects := [Effect.removeObserver req.id] }

end Registration

/-- State of one `Message` instance: `Message.__init__` builds the single
request; only its engine-side state ("INIT", "IN_PROGRESS", terminal) and
identity matter to the session logic. -/
structure MsgState where
  request_id : Nat
  request_state : String
deriving DecidableEq, Repr

namespace Message

/-- `Message.__init__`: the request starts in the engine state "INIT". -/
def init (request_id : Nat) : MsgState :=
  { request_id := request_id, request_state := "INIT" }

/-- `Message.is_sent` property: `self._request.state != "INIT"`. -/
def is_sent (s : MsgState) : Bool :=
  s.request_state != "INIT"

/-- `Message.send(timeout=None)`: raise if already sent, else subscribe
and send. The source's `except` clause removes the observer but contains
no `raise`, so a send failure is swallowed and the method returns
normally. A successful send moves the request to "IN_PROGRESS"
(modelled from the spec: the engine-side state transition
INIT → IN_PROGRESS of `Request.send` lives in `sipsimple.core`, outside
`src/`). -/
def send (s : MsgState) (send_ok : Bool) : Outcome MsgState :=
  if is_sent s then
    { res := Except.error (PyError.runtimeError "This MESSAGE was already sent"),
      state := s, effects := [] }
  else if send_ok then
    { res := Except.ok (),
      state := { s with request_state := "IN_PROGRESS" },
      effects := [Effect.addObserver s.request_id] }
  else
    { res := Except.ok (), state := s,
      effects := [Effect.addObserver s.request_id, Effect.removeObserver s.request_id] }

/-- `Message.end()`: forwards to the request's end operation. -/
def endOp (s : MsgState) : Outcome MsgState :=
  { res := Except.ok (), state := s, effects := [Effect.endRequest s.request_id] }

/-- `Message._NH_SIPRequestDidSucceed`: defensively end the request when
an expiry value is reported, then post `SIPMessageDidSucceed`. -/
def didSucceed (s : MsgState) (req_id : Nat) (expires : Nat) : Outcome MsgState :=
  if expires != 0 then
    { res := Except.ok (), state := s,
      effects := [Effect.endRequest req_id,
                  Effect.notify "SIPMessageDidSucceed" NData.empty] }
  else
    { res := Except.ok (), state := s,
      effects := [Effect.notify "SIPMessageDidSucceed" NData.empty] }

/-- `Message._NH_SIPRequestDidFail`: post `SIPMessageDidFail`. -/
def didFail (s : MsgState) (code : Nat) (reason : String) : Outcome MsgState :=
  { res := Except.ok (), state := s,
    effects := [Effect.notify "SIPMessageDidFail" (NData.msgFailed code reason)] }

/-- `Message._NH_SIPRequestDidEnd`: unconditionally unsubscribe. -/
def didEnd (s : MsgState) (req_id : Nat) : Outcome MsgState :=
  { res := Except.ok (), state := s, effects := [Effect.removeObserver req_id] }

end Message

/-- State of one `Publication` instance (`Publication.__init__`). -/
structure PubState where
  uri : String
  eventPackage : String
  content_type : String
  credentials : Option String
  duration : Nat
  last_etag : Option String
  current_request : Option Request
  last_request : Option Request
  unpublishing : Bool
  next_id : Nat
deriving DecidableEq, Repr

/-- `request is self._current_request`, via the identity field. -/
def PubState.isCurrent (s : PubState) (req : Request) : Bool :=
  match s.current_request with
  | some c => req.id == c.id
  | none => false

/-- `request is self._last_request`, via the identity field. -/
def PubState.isLast (s : PubState) (req : Request) : Bool :=
  match s.last_request with
  | some l => req.id == l.id
  | none => false

namespace Publication

/-- `Publication.__init__(uri, event, content_type, credentials=None,
duration=300)`. -/
def init (uri eventPackage content_type : String) (credentials : Option String)
    (duration : Nat) : PubState :=
  { uri := uri, eventPackage := eventPackage, content_type := content_type,
    credentials := credentials, duration := duration, last_etag := none,
    current_request := none, last_request := none,
    unpublishing := false, next_id := 0 }

/-- The `Request(...)` construction inside
`Publication._make_and_send_request`: `Event` and `Expires` headers,
`SIP-If-Match` when an entity tag is held, content type only when a body
is supplied — and, unlike Registration, a hard-coded `cseq=1` and no
`call_id` argument. -/
def built_request (s : PubState) (body : Option String) (route : String)
    (do_publish : Bool) : Request :=
  let baseHdrs := [("Event", s.eventPackage),
                 ("Expires", toString (if do_publish then s.duration else 0))]
  { id := s.next_id, method := "PUBLISH", call_id := none, cseq := 1,
    contact_uri := none, route := route,
    extra_headers :=
      (match s.last_etag with
       | some etag => baseHdrs ++ [("SIP-If-Match", etag)]
       | none => baseHdrs),
    content_type := (if body.isSome then some s.content_type else none),
    body := body }

/-- `Publication._make_and_send_request`: same observer/cancel/send/raise
skeleton as `Registration._make_and_send_request`. -/
def make_and_send_request (s : PubState) (body : Option String) (route : String)
    (send_ok : Bool) (do_publish : Bool) (engine_call_id : String) : Outcome PubState :=
  let req := built_request s body route do_publish
  let endEffs : List Effect :=
    match s.current_request with
    | some c => [Effect.endRequest c.id]
    | none => []
  let s1 : PubState := { s with current_request := none, next_id := s.next_id + 1 }
  if send_ok then
    { res := Except.ok (),
      state := { s1 with unpublishing := !do_publish,
                         current_request := some (engineSend req engine_call_id) },
      effects := Effect.addObserver req.id :: endEffs }
  else
    { res := Except.error PyError.sendError,
      state := s1,
      effects := Effect.addObserver req.id :: endEffs ++ [Effect.removeObserver req.id] }

/-- `Publication.publish(body, route, timeout=None)`: a body-less publish
needs a prior confirmed publish (`ValueError` otherwise) and a held
entity tag (`PublicationError` otherwise); then the request is built and
sent. -/
def publish (s : PubState) (body : Option String) (route : String)
    (send_ok : Bool) (engine_call_id : String) : Outcome PubState :=
  if body.isNone then
    if s.last_request.isNone then
      { res := Except.error (PyError.valueError "Need body for initial PUBLISH"),
        state := s, effects := [] }
    else if s.last_etag.isNone then
      { res := Except.error (PyError.publicationError "Cannot refresh, last ETag was invalid"),
        state := s, effects := [] }
    else make_and_send_request s body route send_ok true engine_call_id
  else make_and_send_request s body route send_ok true engine_call_id

/-- `Publication.end(timeout=None)`: raise `PublicationError` if nothing
is published, otherwise send a zero-`Expires` request on the last
request's route, then post `SIPPublicationWillEnd` (skipped when the send
raised). -/
def endOp (s : PubState) (send_ok : Bool) (engine_call_id : String) : Outcome PubState :=
  match s.last_request with
  | none =>
      { res := Except.error (PyError.publicationError "Nothing is currently published"),
        state := s, effects := [] }
  | some lastReq =>
      let o := make_and_send_request s none lastReq.route send_ok false engine_call_id
      match o.res with
      | Except.ok _ =>
          { res := Except.ok (), state := o.state,
            effects := o.effects ++ [Effect.notify "SIPPublicationWillEnd" NData.empty] }
      | Except.error e => { res := Except.error e, state := o.state, effects := o.effects }

/-- `Publication._NH_SIPRequestDidSucceed`: stale events return at once;
a teardown success retires the last request, clears the entity tag and
posts `DidEnd`; a publish success promotes the request to `last_request`,
stores `headers.get("SIP-ETag", None)` and posts `DidSucceed`. -/
def didSucceed (s : PubState) (req : Request) (code : Nat) (reason : String)
    (headers : List (String × String)) (expires : Nat) : Outcome PubState :=
  if s.isCurrent req then
    let s1 : PubState := { s with current_request := none }
    if s.unpublishing then
      match s.last_request with
      | some l =>
          { res := Except.ok (),
            state := { s1 with last_request := none, last_etag := none },
            effects := [Effect.endRequest l.id,
                        Effect.notify "SIPPublicationDidEnd" (NData.expired false)] }
      | none =>
          { res := Except.ok (), state := { s1 with last_etag := none },
            effects := [Effect.notify "SIPPublicationDidEnd" (NData.expired false)] }
    else
      { res := Except.ok (),
        state := { s1 with last_request := some req,
                           last_etag := lookupHeader headers "SIP-ETag" },
        effects := [Effect.notify "SIPPublicationDidSucceed"
          (NData.pubSucceeded code reason expires req.route)] }
  else { res := Except.ok (), state := s, effects := [] }

/-- `Publication._NH_SIPRequestDidFail`: stale events return at once; a
412 clears the entity tag before the teardown/refresh branch posts
`DidNotEnd` or `DidFail`. -/
def didFail (s : PubState) (req : Request) (code : Nat) (reason : String) : Outcome PubState :=
  if s.isCurrent req then
    let s1 : PubState := { s with current_request := none }
    let s2 : PubState := if code == 412 then { s1 with last_etag := none } else s1
    if s.unpublishing then
      { res := Except.ok (), state := s2,
        effects := [Effect.notify "SIPPublicationDidNotEnd" (NData.didNotEnd code reason)] }
    else
      { res := Except.ok (), state := s2,
        effects := [Effect.notify "SIPPublicationDidFail" (NData.failed code reason req.route)] }
  else { res := Except.ok (), state := s, effects := [] }

/-- `Publication._NH_SIPRequestWillExpire`: only meaningful for the
confirmed (`last`) request. -/
def willExpire (s : PubState) (req : Request) (expires : Nat) : Outcome PubState :=
  if s.isLast req then
    { res := Except.ok (), state := s,
      effects := [Effect.notify "SIPPublicationWillExpire" (NData.willExpire expires)] }
  else { res := Except.ok (), state := s, effects := [] }

/-- `Publication._NH_SIPRequestDidEnd`: always unsubscribe from the
ending request; if it was the confirmed one, clear it, cancel any stray
in-flight request, clear the entity tag and post `DidEnd(expired=True)`.
The early `return` for a non-`last` request comes before the entity-tag
clear, so the tag survives such events. -/
def didEnd (s : PubState) (req : Request) : Outcome PubState :=
  if s.isLast req then
    let s1 : PubState := { s with last_request := none, last_etag := none }
    match s.current_request with
    | some c =>
        { res := Except.ok (),
          state := { s1 with current_request := none },
          effects := [Effect.removeObserver req.id, Effect.endRequest c.id,
                      Effect.notify "SIPPublicationDidEnd" (NData.expired true)] }
    | none =>
        { res := Except.ok (), state := s1,
          effects := [Effect.removeObserver req.id,
                      Effect.notify "SIPPublicationDidEnd" (NData.expired true)] }
  else { res := Except.ok (), state := s, effects := [Effect.removeObserver req.id] }

end Publication

/-- One external stimulus applied to a `Registration` session: a caller
operation or an EventBus callback. -/
inductive RegOp where
  | register (contact_uri route : String) (send_ok : Bool) (engine_call_id : String)
  | endSession (send_ok : Bool) (engine_call_id : String)
  | succeeded (req : Request) (code : Nat) (reason : String)
      (headers : List (String × String)) (expires : Nat)
  | failed (req : Request) (code : Nat) (reason : String)
  | willExpire (req : Request) (expires : Nat)
  | ended (req : Request)

/-- The session state after one stimulus. A raised exception propagates
to the caller, but the state keeps every mutation made before the raise,
as in the source. -/
def RegState.stepOp (s : RegState) : RegOp → RegState
  | RegOp.register cu route ok cid => (Registration.registerOp s cu route ok cid).state
  | RegOp.endSession ok cid => (Registration.endOp s ok cid).state
  | RegOp.succeeded req code reason headers expires =>
      (Registration.didSucceed s req code reason headers expires).state
  | RegOp.failed req code reason => (Registration.didFail s req code reason).state
  | RegOp.willExpire req expires => (Registration.willExpire s req expires).state
  | RegOp.ended req => (Registration.didEnd s req).state

/-- The session state after a sequence of stimuli. -/
def RegState.run (s : RegState) : List RegOp → RegState
  | [] => s
  | op :: ops => (s.stepOp op).run ops

/-- Freshness/distinctness invariant of a `Registration` state: every
held request was allocated before `next_id`, and the in-flight and
confirmed requests, when both held, are distinct objects. -/
def RegState.inv (s : RegState) : Prop :=
  (∀ r, s.current_request = some r → r.id < s.next_id) ∧
  (∀ r, s.last_request = some r → r.id < s.next_id) ∧
  (∀ r1 r2, s.current_request = some r1 → s.last_request = some r2 → r1.id ≠ r2.id)

/-- One external stimulus applied to a `Publication` session. -/
inductive PubOp where
  | publish (body : Option String) (route : String) (send_ok : Bool) (engine_call_id : String)
  | endSession (send_ok : Bool) (engine_call_id : String)
  | succeeded (req : Request) (code : Nat) (reason : String)
      (headers : List (String × String)) (expires : Nat)
  | failed (req : Request) (code : Nat) (reason : String)
  | willExpire (req : Request) (expires : Nat)
  | ended (req : Request)

/-- The session state after one stimulus, as for `RegState.stepOp`. -/
def PubState.stepOp (s : PubState) : PubOp → PubState
  | PubOp.publish body route ok cid => (Publication.publish s body route ok cid).state
  | PubOp.endSession ok cid => (Publication.endOp s ok cid).state
  | PubOp.succeeded req code reason headers expires =>
      (Publication.didSucceed s req code reason headers expires).state
  | PubOp.failed req code reason => (Publication.didFail s req code reason).state
  | PubOp.willExpire req expires => (Publication.willExpire s req expires).state
  | PubOp.ended req => (Publication.didEnd s req).state

/-- The session state after a sequence of stimuli. -/
def PubState.run (s : PubState) : List PubOp → PubState
  | [] => s
  | op :: ops => (s.stepOp op).run ops

/-- Freshness/distinctness invariant of a `Publication` state. -/
def PubState.inv (s : PubState) : Prop :=
  (∀ r, s.current_request = some r → r.id < s.next_id) ∧
  (∀ r, s.last_request = some r → r.id < s.next_id) ∧
  (∀ r1 r2, s.current_request = some r1 → s.last_request = some r2 → r1.id ≠ r2.id)

/-! Concrete requests and states used to exercise the definitions. -/

/-- A sample request with a given identity. -/
def sampleReq (n : Nat) : Request :=
  { id := n, method := "REGISTER", call_id := some "cid0", cseq := 1,
    contact_uri := some "sip:c@h", route := "r1",
    extra_headers := [], content_type := none, body := none }

/-- Registration state whose in-flight request is `sampleReq 1` and whose
confirmed request is `sampleReq 0`. -/
def sampleRegActive : RegState :=
  { Registration.init "sip:a@h" none 300 with
      current_request := some (sampleReq 1), last_request := some (sampleReq 0),
      next_id := 2 }

/-- Publication state whose in-flight request is `sampleReq 1`, whose
confirmed request is `sampleReq 0` and which holds the entity tag
`"abc"`; a refresh is in flight. -/
def samplePubActive : PubState :=
  { Publication.init "sip:a@h" "presence" "ct" none 300 with
      current_request := some (sampleReq 1), last_request := some (sampleReq 0),
      last_etag := some "abc", next_id := 2 }

/-- `samplePubActive` with a teardown in flight instead. -/
def samplePubTeardown : PubState :=
  { samplePubActive with unpublishing := true }

/-- State for the missing-`Contact` scenario: a registration attempt
(`sampleReq 0`) is in flight on a fresh session. -/
def c4State : RegState :=
  { Registration.init "sip:alice@example.com" none 300 with
      current_request := some (sampleReq 0), next_id := 1 }

/-- Fresh publication session. -/
def c5StateFresh : PubState :=
  Publication.init "sip:a@h" "presence" "application/pidf+xml" none 300

/-- Publication session with a confirmed publish but no entity tag. -/
def c5StateNoTag : PubState :=
  { c5StateFresh with last_request := some (sampleReq 0), next_id := 1 }

/-- The PUBLISH request built by the first publish on `c1PubS0` and fixed
by the engine with call-id `"cidP"`. -/
def c1PubReq0 : Request :=
  { id := 0, method := "PUBLISH", call_id := some "cidP", cseq := 1,
    contact_uri := none, route := "r",
    extra_headers := [("Event", "presence"), ("Expires", "300")],
    content_type := some "application/pidf+xml", body := some "offline" }

/-- Fresh publication session for the cseq scenario. -/
def c1PubS0 : PubState :=
  Publication.init "sip:a@h" "presence" "application/pidf+xml" none 300

/-- After the initial `publish("offline", "r")`. -/
def c1PubS1 : PubState := (Publication.publish c1PubS0 (some "offline") "r" true "cidP").state

/-- After the engine confirms that publish with entity tag `"abc"`. -/
def c1PubS2 : PubState :=
  (Publication.didSucceed c1PubS1 c1PubReq0 200 "OK" [("SIP-ETag", "abc")] 300).state

/-- A fresh, unsent `Message` session. -/
def c2Msg0 : MsgState := Message.init 0

/-- The stimuli for the distinctness scenario: register, confirmation of
that request, register again before any further event. -/
def c9RegOps : List RegOp :=
  [RegOp.register "sip:c@h" "r1" true "cid0",
   RegOp.succeeded (sampleReq 0) 200 "OK" [("Contact", "sip:c@h")] 300,
   RegOp.register "sip:c@h" "r1" true "cid0"]

/-- The registration state those stimuli reach. -/
def c9RegFinal : RegState := (Registration.init "sip:a@h" none 300).run c9RegOps

/-- The second REGISTER request of that scenario: fresh identity, cseq
incremented past the confirmed request's, call-id inherited. -/
def c9RegReq1 : Request :=
  { id := 1, method := "REGISTER", call_id := some "cid0", cseq := 2,
    contact_uri := some "sip:c@h", route := "r1",
    extra_headers := [("Expires", "300")], content_type := none, body := none }

/-- The stimuli for the publication distinctness scenario. -/
def c9PubOps : List PubOp :=
  [PubOp.publish (some "b") "r" true "cid0",
   PubOp.succeeded (sampleReq 0) 200 "OK" [("SIP-ETag", "abc")] 300,
   PubOp.publish (some "b2") "r" true "cid1"]

/-- The publication state those stimuli reach. -/
def c9PubFinal : PubState := (Publication.init "sip:a@h" "presence" "ct" none 300).run c9PubOps

/-- The second PUBLISH request of that scenario: fresh identity, but
cseq 1 again and an engine-chosen call-id, with the held entity tag in
`SIP-If-Match`. -/
def c9PubReq1 : Request :=
  { id := 1, method := "PUBLISH", call_id := some "cid1", cseq := 1,
    contact_uri := none, route := "r",
    extra_headers := [("Event", "presence"), ("Expires", "300"), ("SIP-If-Match", "abc")],
    content_type := some "ct", body := some "b2" }

/-! Helper lemmas. -/

theorem engineSend_id (r : Request) (cid : String) : (engineSend r cid).id = r.id := by
  unfold engineSend
  cases r.call_id <;> rfl

theorem Registration.reg_built_request_id (s : RegState) (cu : Option String)
    (route : String) (dr : Bool) :
    (Registration.built_request s cu route dr).id = s.next_id := by
  unfold Registration.built_request
  cases pyOr s.current_request s.last_request <;> rfl

theorem Publication.pub_built_request_id (s : PubState) (b : Option String)
    (route : String) (dp : Bool) :
    (Publication.built_request s b route dp).id = s.next_id := by
  unfold Publication.built_request
  cases s.last_etag <;> rfl

theorem Registration.reg_mas_state_ok (s : RegState) (cu : Option String)
    (route : String) (dr : Bool) (cid : String) :
    (Registration.make_and_send_request s cu route true dr cid).state =
      { s with
          current_request := some (engineSend (Registration.built_request s cu route dr) cid),
          next_id := s.next_id + 1, unregistering := !dr } := rfl

theorem Registration.reg_mas_state_fail (s : RegState) (cu : Option String)
    (route : String) (dr : Bool) (cid : String) :
    (Registration.make_and_send_request s cu route false dr cid).state =
      { s with current_request := none, next_id := s.next_id + 1 } := rfl

theorem Publication.pub_mas_state_ok (s : PubState) (b : Option String)
    (route : String) (dp : Bool) (cid : String) :
    (Publication.make_and_send_request s b route true dp cid).state =
      { s with
          current_request := some (engineSend (Publication.built_request s b route dp) cid),
          next_id := s.next_id + 1, unpublishing := !dp } := rfl

theorem Publication.pub_mas_state_fail (s : PubState) (b : Option String)
    (route : String) (dp : Bool) (cid : String) :
    (Publication.make_and_send_request s b route false dp cid).state =
      { s with current_request := none, next_id := s.next_id + 1 } := rfl

theorem Registration.reg_mas_inv (s : RegState) (cu : Option String)
    (route : String) (ok dr : Bool) (cid : String) (h : s.inv) :
    ((Registration.make_and_send_request s cu route ok dr cid).state).inv := by
  obtain ⟨hc, hl, hd⟩ := h
  cases ok with
  | false =>
      rw [Registration.reg_mas_state_fail]
      refine ⟨?_, ?_, ?_⟩
      · intro r hr; cases hr
      · intro r hr; exact Nat.lt_succ_of_lt (hl r hr)
      · intro r1 r2 h1 _; cases h1
  | true =>
      rw [Registration.reg_mas_state_ok]
      have hid : (engineSend (Registration.built_request s cu route dr) cid).id = s.next_id := by
        rw [engineSend_id, Registration.reg_built_request_id]
      refine ⟨?_, ?_, ?_⟩
      · intro r hr
        cases hr
        simp [hid]
      · intro r hr; exact Nat.lt_succ_of_lt (hl r hr)
      · intro r1 r2 h1 h2
        cases h1
        have := hl r2 h2
        omega

theorem Publication.pub_mas_inv (s : PubState) (b : Option String)
    (route : String) (ok dp : Bool) (cid : String) (h : s.inv) :
    ((Publication.make_and_send_request s b route ok dp cid).state).inv := by
  obtain ⟨hc, hl, hd⟩ := h
  cases ok with
  | false =>
      rw [Publication.pub_mas_state_fail]
      refine ⟨?_, ?_, ?_⟩
      · intro r hr; cases hr
      · intro r hr; exact Nat.lt_succ_of_lt (hl r hr)
      · intro r1 r2 h1 _; cases h1
  | true =>
      rw [Publication.pub_mas_state_ok]
      have hid : (engineSend (Publication.built_request s b route dp) cid).id = s.next_id := by
        rw [engineSend_id, Publication.pub_built_request_id]
      refine ⟨?_, ?_, ?_⟩
      · intro r hr
        cases hr
        simp [hid]
      · intro r hr; exact Nat.lt_succ_of_lt (hl r hr)
      · intro r1 r2 h1 h2
        cases h1
        have := hl r2 h2
        omega

theorem Registration.reg_endOp_state (s : RegState) (ok : Bool) (cid : String) (lr : Request)
    (h : s.last_request = some lr) :
    (Registration.endOp s ok cid).state =
      (Registration.make_and_send_request s lr.contact_uri lr.route ok false cid).state := by
  unfold Registration.endOp
  rw [h]
  cases hres : (Registration.make_and_send_request s lr.contact_uri lr.route ok false cid).res <;>
    simp [hres]

theorem Publication.pub_endOp_state (s : PubState) (ok : Bool) (cid : String) (lr : Request)
    (h : s.last_request = some lr) :
    (Publication.endOp s ok cid).state =
      (Publication.make_and_send_request s none lr.route ok false cid).state := by
  unfold Publication.endOp
  rw [h]
  cases hres : (Publication.make_and_send_request s none lr.route ok false cid).res <;>
    simp [hres]

theorem RegState.reg_stepOp_inv (s : RegState) (op : RegOp) (h : s.inv) : (s.stepOp op).inv := by
  obtain ⟨hc, hl, hd⟩ := h
  cases op with
  | register cu route ok cid =>
      exact Registration.reg_mas_inv s (some cu) route ok true cid ⟨hc, hl, hd⟩
  | endSession ok cid =>
      show (Registration.endOp s ok cid).state.inv
      cases hlast : s.last_request with
      | none =>
          have hs : (Registration.endOp s ok cid).state = s := by
            simp [Registration.endOp, hlast]
          rw [hs]
          exact ⟨hc, hl, hd⟩
      | some lr =>
          rw [Registration.reg_endOp_state s ok cid lr hlast]
          exact Registration.reg_mas_inv s lr.contact_uri lr.route ok false cid ⟨hc, hl, hd⟩
  | succeeded req code reason headers expires =>
      show (Registration.didSucceed s req code reason headers expires).state.inv
      unfold Registration.didSucceed
      cases hcur : s.isCurrent req with
      | false =>
          simp only [Bool.false_eq_true, if_false]
          exact ⟨hc, hl, hd⟩
      | true =>
          simp only [if_true]
          obtain ⟨c, hcc, hcid⟩ : ∃ c, s.current_request = some c ∧ req.id = c.id := by
            unfold RegState.isCurrent at hcur
            cases hcc : s.current_request with
            | none => rw [hcc] at hcur; cases hcur
            | some c =>
                rw [hcc] at hcur
                exact ⟨c, rfl, by simpa using hcur⟩
          cases hu : s.unregistering with
          | true =>
              simp only [if_true]
              cases hlast : s.last_request with
              | none =>
                  refine ⟨?_, ?_, ?_⟩
                  · intro r hr; cases hr
                  · intro r hr; cases hr
                  · intro r1 r2 h1 _; cases h1
              | some l =>
                  refine ⟨?_, ?_, ?_⟩
                  · intro r hr; cases hr
                  · intro r hr; cases hr
                  · intro r1 r2 h1 _; cases h1
          | false =>
              simp only [Bool.false_eq_true, if_false]
              cases hlk : lookupHeader headers "Contact" with
              | some contacts =>
                  refine ⟨?_, ?_, ?_⟩
                  · intro r hr; cases hr
                  · intro r hr
                    cases hr
                    rw [hcid]
                    exact hc c hcc
                  · intro r1 r2 h1 _; cases h1
              | none =>
                  refine ⟨?_, ?_, ?_⟩
                  · intro r hr; cases hr
                  · intro r hr
                    cases hr
                    rw [hcid]
                    exact hc c hcc
                  · intro r1 r2 h1 _; cases h1
  | failed req code reason =>
      show (Registration.didFail s req code reason).state.inv
      unfold Registration.didFail
      cases hcur : s.isCurrent req with
      | false =>
          simp only [Bool.false_eq_true, if_false]
          exact ⟨hc, hl, hd⟩
      | true =>
          simp only [if_true]
          cases hu : s.unregistering with
          | true =>
              simp only [if_true]
              refine ⟨?_, ?_, ?_⟩
              · intro r hr; cases hr
              · intro r hr; exact hl r hr
              · intro r1 r2 h1 _; cases h1
          | false =>
              simp only [Bool.false_eq_true, if_false]
              refine ⟨?_, ?_, ?_⟩
              · intro r hr; cases hr
              · intro r hr; exact hl r hr
              · intro r1 r2 h1 _; cases h1
  | willExpire req expires =>
      show (Registration.willExpire s req expires).state.inv
      unfold Registration.willExpire
      cases hlast : s.isLast req with
      | false =>
          simp only [Bool.false_eq_true, if_false]
          exact ⟨hc, hl, hd⟩
      | true =>
          simp only [if_true]
          exact ⟨hc, hl, hd⟩
  | ended req =>
      show (Registration.didEnd s req).state.inv
      unfold Registration.didEnd
      cases hlast : s.isLast req with
      | false =>
          simp only [Bool.false_eq_true, if_false]
          exact ⟨hc, hl, hd⟩
      | true =>
          simp only [if_true]
          cases hcc : s.current_request with
          | some c =>
              refine ⟨?_, ?_, ?_⟩
              · intro r hr; cases hr
              · intro r hr; cases hr
              · intro r1 r2 h1 _; cases h1
          | none =>
              refine ⟨?_, ?_, ?_⟩
              · intro r hr; cases hr
              · intro r hr; cases hr
              · intro r1 r2 h1 _; cases h1

theorem RegState.reg_run_inv (ops : List RegOp) (s : RegState) (h : s.inv) : (s.run ops).inv := by
  induction ops generalizing s with
  | nil => exact h
  | cons op ops ih => exact ih _ (reg_stepOp_inv s op h)

theorem Registration.reg_init_inv (uri : String) (credentials : Option String) (duration : Nat) :
    (Registration.init uri credentials duration).inv := by
  refine ⟨?_, ?_, ?_⟩
  · intro r hr; cases hr
  · intro r hr; cases hr
  · intro r1 r2 h1 _; cases h1

theorem PubState.pub_stepOp_inv (s : PubState) (op : PubOp) (h : s.inv) : (s.stepOp op).inv := by
  obtain ⟨hc, hl, hd⟩ := h
  cases op with
  | publish body route ok cid =>
      show (Publication.publish s body route ok cid).state.inv
      unfold Publication.publish
      cases hb : body.isNone with
      | true =>
          simp only [if_true]
          cases hlr : s.last_request.isNone with
          | true =>
              simp only [if_true]
              exact ⟨hc, hl, hd⟩
          | false =>
              simp only [Bool.false_eq_true, if_false]
              cases he : s.last_etag.isNone with
              | true =>
                  simp only [if_true]
                  exact ⟨hc, hl, hd⟩
              | false =>
                  simp only [Bool.false_eq_true, if_false]
                  exact Publication.pub_mas_inv s body route ok true cid ⟨hc, hl, hd⟩
      | false =>
          simp only [Bool.false_eq_true, if_false]
          exact Publication.pub_mas_inv s body route ok true cid ⟨hc, hl, hd⟩
  | endSession ok cid =>
      show (Publication.endOp s ok cid).state.inv
      cases hlast : s.last_request with
      | none =>
          have hs : (Publication.endOp s ok cid).state = s := by
            simp [Publication.endOp, hlast]
          rw [hs]
          exact ⟨hc, hl, hd⟩
      | some lr =>
          rw [Publication.pub_endOp_state s ok cid lr hlast]
          exact Publication.pub_mas_inv s none lr.route ok false cid ⟨hc, hl, hd⟩
  | succeeded req code reason headers expires =>
      show (Publication.didSucceed s req code reason headers expires).state.inv
      unfold Publication.didSucceed
      cases hcur : s.isCurrent req with
      | false =>
          simp only [Bool.false_eq_true, if_false]
          exact ⟨hc, hl, hd⟩
      | true =>
          simp only [if_true]
          obtain ⟨c, hcc, hcid⟩ : ∃ c, s.current_request = some c ∧ req.id = c.id := by
            unfold PubState.isCurrent at hcur
            cases hcc : s.current_request with
            | none => rw [hcc] at hcur; cases hcur
            | some c =>
                rw [hcc] at hcur
                exact ⟨c, rfl, by simpa using hcur⟩
          cases hu : s.unpublishing with
          | true =>
              simp only [if_true]
              cases hlast : s.last_request with
              | none =>
                  refine ⟨?_, ?_, ?_⟩
                  · intro r hr; cases hr
                  · intro r hr; cases hr
                  · intro r1 r2 h1 _; cases h1
              | some l =>
                  refine ⟨?_, ?_, ?_⟩
                  · intro r hr; cases hr
                  · intro r hr; cases hr
                  · intro r1 r2 h1 _; cases h1
          | false =>
              simp only [Bool.false_eq_true, if_false]
              refine ⟨?_, ?_, ?_⟩
              · intro r hr; cases hr
              · intro r hr
                cases hr
                rw [hcid]
                exact hc c hcc
              · intro r1 r2 h1 _; cases h1
  | failed req code reason =>
      show (Publication.didFail s req code reason).state.inv
      unfold Publication.didFail
      cases hcur : s.isCurrent req with
      | false =>
          simp only [Bool.false_eq_true, if_false]
          exact ⟨hc, hl, hd⟩
      | true =>
          simp only [if_true]
          cases h412 : (code == 412) with
          | true =>
              simp only [if_true]
              cases hu : s.unpublishing with
              | true =>
                  simp only [if_true]
                  refine ⟨?_, ?_, ?_⟩
                  · intro r hr; cases hr
                  · intro r hr; exact hl r hr
                  · intro r1 r2 h1 _; cases h1
              | false =>
                  simp only [Bool.false_eq_true, if_false]
                  refine ⟨?_, ?_, ?_⟩
                  · intro r hr; cases hr
                  · intro r hr; exact hl r hr
                  · intro r1 r2 h1 _; cases h1
          | false =>
              simp only [Bool.false_eq_true, if_false]
              cases hu : s.unpublishing with
              | true =>
                  simp only [if_true]
                  refine ⟨?_, ?_, ?_⟩
                  · intro r hr; cases hr
                  · intro r hr; exact hl r hr
                  · intro r1 r2 h1 _; cases h1
              | false =>
                  simp only [Bool.false_eq_true, if_false]
                  refine ⟨?_, ?_, ?_⟩
                  · intro r hr; cases hr
                  · intro r hr; exact hl r hr
                  · intro r1 r2 h1 _; cases h1
  | willExpire req expires =>
      show (Publication.willExpire s req expires).state.inv
      unfold Publication.willExpire
      cases hlast : s.isLast req with
      | false =>
          simp only [Bool.false_eq_true, if_false]
          exact ⟨hc, hl, hd⟩
      | true =>
          simp only [if_true]
          exact ⟨hc, hl, hd⟩
  | ended req =>
      show (Publication.didEnd s req).state.inv
      unfold Publication.didEnd
      cases hlast : s.isLast req with
      | false =>
          simp only [Bool.false_eq_true, if_false]
          exact ⟨hc, hl, hd⟩
      | true =>
          simp only [if_true]
          cases hcc : s.current_request with
          | some c =>
              refine ⟨?_, ?_, ?_⟩
              · intro r hr; cases hr
              · intro r hr; cases hr
              · intro r1 r2 h1 _; cases h1
          | none =>
              refine ⟨?_, ?_, ?_⟩
              · intro r hr; cases hr
              · intro r hr; cases hr
              · intro r1 r2 h1 _; cases h1

theorem PubState.pub_run_inv (ops : List PubOp) (s : PubState) (h : s.inv) : (s.run ops).inv := by
  induction ops generalizing s with
  | nil => exact h
  | cons op ops ih => exact ih _ (pub_stepOp_inv s op h)

theorem Publication.pub_init_inv (uri eventPackage content_type : String)
    (credentials : Option String) (duration : Nat) :
    (Publication.init uri eventPackage content_type credentials duration).inv := by
  refine ⟨?_, ?_, ?_⟩
  · intro r hr; cases hr
  · intro r hr; cases hr
  · intro r1 r2 h1 _; cases h1

/-! Claim theorems. -/

/-- C1 (counterexample): the claim that cseq/call-id inheritance "holds
for both Registration and Publication" fails for Publication. Concretely:
after an initial `publish("offline", "r")` is confirmed (so the previous
transaction has cseq 1), the next PUBLISH transaction is built with
cseq 1 — not the previous cseq plus 1 — and with no call-id. -/
theorem c1_pub_cseq_counterexample :
    c1PubS2.last_request = some c1PubReq0 ∧
    c1PubReq0.cseq = 1 ∧
    (Publication.built_request c1PubS2 none "r" true).cseq = 1 ∧
    (Publication.built_request c1PubS2 none "r" true).cseq ≠ c1PubReq0.cseq + 1 ∧
    (Publication.built_request c1PubS2 none "r" true).call_id = none ∧
    ((Publication.publish c1PubS2 none "r" true "cidQ").state.current_request.map
      Request.cseq) = some 1 :=
  ⟨rfl, rfl, rfl, by decide, rfl, rfl⟩

/-- C1 (amended): for Registration, every new transaction's cseq equals
the previous transaction's cseq plus 1 and its call-id is taken unchanged
from the previous transaction, where the previous transaction is
`currentTransaction` if present else `lastTransaction`; only the very
first transaction of a Registration session starts at cseq 1 with no
call-id. Publication does not follow this rule: every PUBLISH transaction
is built with cseq 1 and no call-id, regardless of prior transactions. -/
theorem c1_amended_cseq_callid :
    (∀ (s : RegState) (cu : Option String) (route : String) (dr : Bool) (p : Request),
        pyOr s.current_request s.last_request = some p →
        (Registration.built_request s cu route dr).cseq = p.cseq + 1 ∧
        (Registration.built_request s cu route dr).call_id = p.call_id) ∧
    (∀ (s : RegState) (cu : Option String) (route : String) (dr : Bool),
        pyOr s.current_request s.last_request = none →
        (Registration.built_request s cu route dr).cseq = 1 ∧
        (Registration.built_request s cu route dr).call_id = none) ∧
    (∀ (s : PubState) (b : Option String) (route : String) (dp : Bool),
        (Publication.built_request s b route dp).cseq = 1 ∧
        (Publication.built_request s b route dp).call_id = none) := by
  refine ⟨?_, ?_, ?_⟩
  · intro s cu route dr p h
    unfold Registration.built_request
    rw [h]
    exact ⟨rfl, rfl⟩
  · intro s cu route dr h
    unfold Registration.built_request
    rw [h]
    exact ⟨rfl, rfl⟩
  · intro s b route dp
    unfold Publication.built_request
    cases s.last_etag <;> exact ⟨rfl, rfl⟩

/-- Witness for C1 (amended): the inheritance rule evaluated on an active
registration state, on a fresh registration state, and the constant
cseq 1 / absent call-id on an active publication state. -/
theorem c1_amended_cseq_callid_witness :
    pyOr sampleRegActive.current_request sampleRegActive.last_request = some (sampleReq 1) ∧
    (Registration.built_request sampleRegActive (some "c") "r" true).cseq =
      (sampleReq 1).cseq + 1 ∧
    (Registration.built_request sampleRegActive (some "c") "r" true).call_id =
      (sampleReq 1).call_id ∧
    (Registration.built_request (Registration.init "sip:a@h" none 300)
      (some "c") "r" true).cseq = 1 ∧
    (Registration.built_request (Registration.init "sip:a@h" none 300)
      (some "c") "r" true).call_id = none ∧
    (Publication.built_request samplePubActive (some "b") "r" true).cseq = 1 ∧
    (Publication.built_request samplePubActive (some "b") "r" true).call_id = none :=
  ⟨rfl,
   (c1_amended_cseq_callid.1 sampleRegActive (some "c") "r" true (sampleReq 1) rfl).1,
   (c1_amended_cseq_callid.1 sampleRegActive (some "c") "r" true (sampleReq 1) rfl).2,
   (c1_amended_cseq_callid.2.1 (Registration.init "sip:a@h" none 300) (some "c") "r" true rfl).1,
   (c1_amended_cseq_callid.2.1 (Registration.init "sip:a@h" none 300) (some "c") "r" true rfl).2,
   (c1_amended_cseq_callid.2.2 samplePubActive (some "b") "r" true).1,
   (c1_amended_cseq_callid.2.2 samplePubActive (some "b") "r" true).2⟩

/-- C2 (counterexample): the claim that every session type re-raises a
send failure fails for `Message`: on a fresh message whose engine send
raises, `Message.send` removes the observer but returns normally
(`Except.ok`) instead of propagating the failure. -/
theorem c2_message_send_swallows :
    Message.send c2Msg0 false =
      { res := Except.ok (), state := c2Msg0,
        effects := [Effect.addObserver 0, Effect.removeObserver 0] } := rfl

/-- C2 (amended): if the transaction engine raises during send,
Registration and Publication remove the observer they had just added for
the new transaction and re-raise the failure synchronously; Message also
removes the observer it had just added, but swallows the exception and
returns normally. -/
theorem c2_amended_dispatch_failure :
    (∀ (s : RegState) (cu : Option String) (route : String) (dr : Bool) (cid : String),
        (Registration.make_and_send_request s cu route false dr cid).res =
          Except.error PyError.sendError ∧
        Effect.addObserver s.next_id ∈
          (Registration.make_and_send_request s cu route false dr cid).effects ∧
        Effect.removeObserver s.next_id ∈
          (Registration.make_and_send_request s cu route false dr cid).effects) ∧
    (∀ (s : PubState) (b : Option String) (route : String) (dp : Bool) (cid : String),
        (Publication.make_and_send_request s b route false dp cid).res =
          Except.error PyError.sendError ∧
        Effect.addObserver s.next_id ∈
          (Publication.make_and_send_request s b route false dp cid).effects ∧
        Effect.removeObserver s.next_id ∈
          (Publication.make_and_send_request s b route false dp cid).effects) ∧
    (∀ (s : MsgState), s.request_state = "INIT" →
        Message.send s false =
          { res := Except.ok (), state := s,
            effects := [Effect.addObserver s.request_id,
                        Effect.removeObserver s.request_id] }) := by
  refine ⟨?_, ?_, ?_⟩
  · intro s cu route dr cid
    refine ⟨rfl, ?_, ?_⟩
    · simp [Registration.make_and_send_request, Registration.reg_built_request_id]
    · simp [Registration.make_and_send_request, Registration.reg_built_request_id]
  · intro s b route dp cid
    refine ⟨rfl, ?_, ?_⟩
    · simp [Publication.make_and_send_request, Publication.pub_built_request_id]
    · simp [Publication.make_and_send_request, Publication.pub_built_request_id]
  · intro s h
    simp [Message.send, Message.is_sent, h]

/-- Witness for C2 (amended) at concrete active states and a fresh
message. -/
theorem c2_amended_dispatch_failure_witness :
    (Registration.make_and_send_request sampleRegActive (some "c") "r" false true "cid").res =
      Except.error PyError.sendError ∧
    Effect.removeObserver 2 ∈
      (Registration.make_and_send_request sampleRegActive (some "c") "r" false true "cid").effects ∧
    (Publication.make_and_send_request samplePubActive (some "b") "r" false true "cid").res =
      Except.error PyError.sendError ∧
    Effect.removeObserver 2 ∈
      (Publication.make_and_send_request samplePubActive (some "b") "r" false true "cid").effects ∧
    Message.send (Message.init 3) false =
      { res := Except.ok (), state := Message.init 3,
        effects := [Effect.addObserver 3, Effect.removeObserver 3] } :=
  ⟨(c2_amended_dispatch_failure.1 sampleRegActive (some "c") "r" true "cid").1,
   (c2_amended_dispatch_failure.1 sampleRegActive (some "c") "r" true "cid").2.2,
   (c2_amended_dispatch_failure.2.1 samplePubActive (some "b") "r" true "cid").1,
   (c2_amended_dispatch_failure.2.1 samplePubActive (some "b") "r" true "cid").2.2,
   c2_amended_dispatch_failure.2.2 (Message.init 3) rfl⟩

/-- C3 (counterexample): the claim that handling a transaction-end event
clears `lastEntityTag` for any ending transaction fails: an ending
transaction that is not the session's confirmed `lastTransaction` leaves
`lastEntityTag` (and the whole state) unchanged; only the unsubscribe
happens. -/
theorem c3_didEnd_stale_keeps_etag :
    (Publication.didEnd samplePubActive (sampleReq 5)).state.last_etag = some "abc" ∧
    (Publication.didEnd samplePubActive (sampleReq 5)).state = samplePubActive ∧
    (Publication.didEnd samplePubActive (sampleReq 5)).effects =
      [Effect.removeObserver 5] :=
  ⟨rfl, rfl, rfl⟩

/-- C3 (amended): handling a transaction-end event always unsubscribes
the observer for the ending transaction first; when — and only on the
path where — the ending transaction is the session's confirmed
`lastTransaction`, it additionally clears `lastEntityTag` together with
the Registration-equivalent clear/emit behaviour; for any other ending
transaction the state is left entirely unchanged. -/
theorem c3_amended_didEnd_etag :
    (∀ (s : PubState) (req : Request),
        (Publication.didEnd s req).effects.head? = some (Effect.removeObserver req.id)) ∧
    (∀ (s : PubState) (req : Request),
        s.isLast req = true →
        (Publication.didEnd s req).state.last_etag = none ∧
        (Publication.didEnd s req).state.last_request = none) ∧
    (∀ (s : PubState) (req : Request),
        s.isLast req = false → (Publication.didEnd s req).state = s) := by
  refine ⟨?_, ?_, ?_⟩
  · intro s req
    unfold Publication.didEnd
    cases hlast : s.isLast req with
    | false => rfl
    | true =>
        simp only [if_true]
        cases s.current_request <;> rfl
  · intro s req h
    unfold Publication.didEnd
    rw [h]
    simp only [if_true]
    cases s.current_request <;> exact ⟨rfl, rfl⟩
  · intro s req h
    unfold Publication.didEnd
    rw [h]
    rfl

/-- Witness for C3 (amended): a transaction-end event for the confirmed
request of an active publication state clears the entity tag, and its
effect list starts with the unsubscribe. -/
theorem c3_amended_didEnd_etag_witness :
    (Publication.didEnd samplePubActive (sampleReq 0)).effects.head? =
      some (Effect.removeObserver 0) ∧
    (Publication.didEnd samplePubActive (sampleReq 0)).state.last_etag = none ∧
    (Publication.didEnd samplePubTeardown (sampleReq 7)).state = samplePubTeardown :=
  ⟨c3_amended_didEnd_etag.1 samplePubActive (sampleReq 0),
   (c3_amended_didEnd_etag.2.1 samplePubActive (sampleReq 0) rfl).1,
   c3_amended_didEnd_etag.2.2 samplePubTeardown (sampleReq 7) rfl⟩

/-- C4 (code bug, evaluated at the failing input): in Registration's
success handler for a non-teardown success whose headers mapping has no
"Contact" entry, the `except IndexError` clause does not catch the
`KeyError` a missing dict key raises, so instead of completing and
emitting Succeeded with an empty contact-uri list the handler raises
`KeyError` and posts no notification (after having already promoted the
request to `last_request`); with a "Contact" entry present the same
handler completes normally. -/
theorem c4_missing_contact_keyerror :
    Registration.didSucceed c4State (sampleReq 0) 200 "OK" [] 300 =
      { res := Except.error (PyError.keyError "Contact"),
        state := { c4State with current_request := none, last_request := some (sampleReq 0) },
        effects := [] } ∧
    (Registration.didSucceed c4State (sampleReq 0) 200 "OK"
      [("Contact", "sip:c@h")] 300).res = Except.ok () :=
  ⟨rfl, rfl⟩

/-- C5: `Publication.publish` with an absent body raises `ValueError`
("Need body for initial PUBLISH") before any transaction is created when
no prior confirmed publish exists; raises the distinct
`PublicationError` ("Cannot refresh, last ETag was invalid") before any
transaction is created when a prior confirmed publish exists but the
entity tag is absent; and whenever a body is supplied proceeds to build
and send a transaction regardless of entity-tag state. -/
theorem c5_publish_validation :
    (∀ (s : PubState) (route : String) (ok : Bool) (cid : String),
        s.last_request = none →
        Publication.publish s none route ok cid =
          { res := Except.error (PyError.valueError "Need body for initial PUBLISH"),
            state := s, effects := [] }) ∧
    (∀ (s : PubState) (route : String) (ok : Bool) (cid : String) (r : Request),
        s.last_request = some r → s.last_etag = none →
        Publication.publish s none route ok cid =
          { res := Except.error
              (PyError.publicationError "Cannot refresh, last ETag was invalid"),
            state := s, effects := [] }) ∧
    (∀ (s : PubState) (b : String) (route : String) (ok : Bool) (cid : String),
        Publication.publish s (some b) route ok cid =
          Publication.make_and_send_request s (some b) route ok true cid) := by
  refine ⟨?_, ?_, ?_⟩
  · intro s route ok cid h
    simp [Publication.publish, h]
  · intro s route ok cid r h1 h2
    simp [Publication.publish, h1, h2]
  · intro s b route ok cid
    rfl

/-- Witness for C5 at concrete publication states: fresh session, session
with a confirmed publish but no entity tag, and a publish with a body on
the latter. -/
theorem c5_publish_validation_witness :
    (Publication.publish c5StateFresh none "r" true "cid").res =
      Except.error (PyError.valueError "Need body for initial PUBLISH") ∧
    (Publication.publish c5StateNoTag none "r" true "cid").res =
      Except.error (PyError.publicationError "Cannot refresh, last ETag was invalid") ∧
    Publication.publish c5StateNoTag (some "b") "r" true "cid" =
      Publication.make_and_send_request c5StateNoTag (some "b") "r" true true "cid" :=
  ⟨by rw [c5_publish_validation.1 c5StateFresh "r" true "cid" rfl],
   by rw [c5_publish_validation.2.1 c5StateNoTag "r" true "cid" (sampleReq 0) rfl rfl],
   c5_publish_validation.2.2 c5StateNoTag "b" "r" true "cid"⟩

/-- C6: calling end on a Registration session whose `lastTransaction` is
absent returns silently, creates no transaction and raises no error;
calling end on a Publication session whose `lastTransaction` is absent
raises a `PublicationError` and creates no transaction. -/
theorem c6_end_inactive :
    (∀ (s : RegState) (ok : Bool) (cid : String),
        s.last_request = none →
        Registration.endOp s ok cid =
          { res := Except.ok (), state := s, effects := [] }) ∧
    (∀ (s : PubState) (ok : Bool) (cid : String),
        s.last_request = none →
        Publication.endOp s ok cid =
          { res := Except.error (PyError.publicationError "Nothing is currently published"),
            state := s, effects := [] }) := by
  constructor
  · intro s ok cid h
    simp [Registration.endOp, h]
  · intro s ok cid h
    simp [Publication.endOp, h]

/-- Witness for C6 on fresh (never-active) sessions. -/
theorem c6_end_inactive_witness :
    Registration.endOp (Registration.init "sip:a@h" none 300) true "cid" =
      { res := Except.ok (), state := Registration.init "sip:a@h" none 300,
        effects := [] } ∧
    Publication.endOp c5StateFresh true "cid" =
      { res := Except.error (PyError.publicationError "Nothing is currently published"),
        state := c5StateFresh, effects := [] } :=
  ⟨c6_end_inactive.1 (Registration.init "sip:a@h" none 300) true "cid" rfl,
   c6_end_inactive.2 c5StateFresh true "cid" rfl⟩

/-- C7: for every Publication state whose in-flight transaction is the
failing one, a failure with code 412 leaves `lastEntityTag` absent, both
when the in-flight request was a refresh/publish and when it was a
teardown attempt. -/
theorem c7_fail_412_clears_etag :
    ∀ (s : PubState) (req : Request) (reason : String),
      s.isCurrent req = true →
      (Publication.didFail s req 412 reason).state.last_etag = none := by
  intro s req reason h
  unfold Publication.didFail
  rw [h]
  simp only [if_true]
  cases s.unpublishing <;> rfl

/-- Witness for C7: a 412 on an active publication state, once with a
refresh in flight and once with a teardown in flight. -/
theorem c7_fail_412_clears_etag_witness :
    (Publication.didFail samplePubActive (sampleReq 1) 412 "Conditional Request Failed"
      ).state.last_etag = none ∧
    (Publication.didFail samplePubTeardown (sampleReq 1) 412 "Conditional Request Failed"
      ).state.last_etag = none :=
  ⟨c7_fail_412_clears_etag samplePubActive (sampleReq 1) "Conditional Request Failed" rfl,
   c7_fail_412_clears_etag samplePubTeardown (sampleReq 1) "Conditional Request Failed" rfl⟩

/-- C8: for every Registration and Publication state, a success or
failure completion event whose transaction is not the in-flight one
posts no session-level event and leaves the whole state unchanged; and a
transaction-end event for a non-confirmed transaction has the observer
unsubscribe as its only effect and also leaves the state unchanged. -/
theorem c8_stale_completion_noop :
    (∀ (s : RegState) (req : Request) (code : Nat) (reason : String)
        (headers : List (String × String)) (expires : Nat),
        s.isCurrent req = false →
        Registration.didSucceed s req code reason headers expires =
          { res := Except.ok (), state := s, effects := [] } ∧
        Registration.didFail s req code reason =
          { res := Except.ok (), state := s, effects := [] }) ∧
    (∀ (s : PubState) (req : Request) (code : Nat) (reason : String)
        (headers : List (String × String)) (expires : Nat),
        s.isCurrent req = false →
        Publication.didSucceed s req code reason headers expires =
          { res := Except.ok (), state := s, effects := [] } ∧
        Publication.didFail s req code reason =
          { res := Except.ok (), state := s, effects := [] }) ∧
    (∀ (s : RegState) (req : Request),
        s.isLast req = false →
        Registration.didEnd s req =
          { res := Except.ok (), state := s,
            effects := [Effect.removeObserver req.id] }) ∧
    (∀ (s : PubState) (req : Request),
        s.isLast req = false →
        Publication.didEnd s req =
          { res := Except.ok (), state := s,
            effects := [Effect.removeObserver req.id] }) := by
  refine ⟨?_, ?_, ?_, ?_⟩
  · intro s req code reason headers expires h
    constructor
    · unfold Registration.didSucceed
      rw [h]
      rfl
    · unfold Registration.didFail
      rw [h]
      rfl
  · intro s req code reason headers expires h
    constructor
    · unfold Publication.didSucceed
      rw [h]
      rfl
    · unfold Publication.didFail
      rw [h]
      rfl
  · intro s req h
    unfold Registration.didEnd
    rw [h]
    rfl
  · intro s req h
    unfold Publication.didEnd
    rw [h]
    rfl

/-- Witness for C8: stale events (request identity 7, unknown to the
sessions) on active registration and publication states. -/
theorem c8_stale_completion_noop_witness :
    Registration.didSucceed sampleRegActive (sampleReq 7) 200 "OK" [] 0 =
      { res := Except.ok (), state := sampleRegActive, effects := [] } ∧
    Registration.didFail sampleRegActive (sampleReq 7) 500 "Err" =
      { res := Except.ok (), state := sampleRegActive, effects := [] } ∧
    Publication.didSucceed samplePubActive (sampleReq 7) 200 "OK" [] 0 =
      { res := Except.ok (), state := samplePubActive, effects := [] } ∧
    Publication.didFail samplePubActive (sampleReq 7) 500 "Err" =
      { res := Except.ok (), state := samplePubActive, effects := [] } ∧
    Registration.didEnd sampleRegActive (sampleReq 7) =
      { res := Except.ok (), state := sampleRegActive,
        effects := [Effect.removeObserver 7] } ∧
    Publication.didEnd samplePubActive (sampleReq 7) =
      { res := Except.ok (), state := samplePubActive,
        effects := [Effect.removeObserver 7] } :=
  ⟨(c8_stale_completion_noop.1 sampleRegActive (sampleReq 7) 200 "OK" [] 0 rfl).1,
   (c8_stale_completion_noop.1 sampleRegActive (sampleReq 7) 500 "Err" [] 0 rfl).2,
   (c8_stale_completion_noop.2.1 samplePubActive (sampleReq 7) 200 "OK" [] 0 rfl).1,
   (c8_stale_completion_noop.2.1 samplePubActive (sampleReq 7) 500 "Err" [] 0 rfl).2,
   c8_stale_completion_noop.2.2.1 sampleRegActive (sampleReq 7) rfl,
   c8_stale_completion_noop.2.2.2 samplePubActive (sampleReq 7) rfl⟩

/-- C9: for every Registration and Publication session and every sequence
of caller operations and completion callbacks from a fresh session, the
in-flight and confirmed transactions, whenever both held, are distinct
transaction objects. -/
theorem c9_current_last_distinct :
    (∀ (uri : String) (credentials : Option String) (duration : Nat)
        (ops : List RegOp) (r1 r2 : Request),
        ((Registration.init uri credentials duration).run ops).current_request = some r1 →
        ((Registration.init uri credentials duration).run ops).last_request = some r2 →
        r1.id ≠ r2.id) ∧
    (∀ (uri eventPackage content_type : String) (credentials : Option String)
        (duration : Nat) (ops : List PubOp) (r1 r2 : Request),
        ((Publication.init uri eventPackage content_type credentials duration).run
          ops).current_request = some r1 →
        ((Publication.init uri eventPackage content_type credentials duration).run
          ops).last_request = some r2 →
        r1.id ≠ r2.id) := by
  constructor
  · intro uri credentials duration ops r1 r2 h1 h2
    exact (RegState.reg_run_inv ops _ (Registration.reg_init_inv uri credentials duration)).2.2
      r1 r2 h1 h2
  · intro uri eventPackage content_type credentials duration ops r1 r2 h1 h2
    exact (PubState.pub_run_inv ops _
      (Publication.pub_init_inv uri eventPackage content_type credentials duration)).2.2
      r1 r2 h1 h2

/-- Witness for C9 at concrete register/confirm/register and
publish/confirm/publish scenarios which do hold both an in-flight and a
confirmed transaction at the final inspection point. -/
theorem c9_current_last_distinct_witness :
    (c9RegFinal.current_request = some c9RegReq1 ∧
     c9RegFinal.last_request = some (sampleReq 0) ∧
     c9RegReq1.id ≠ (sampleReq 0).id) ∧
    (c9PubFinal.current_request = some c9PubReq1 ∧
     c9PubFinal.last_request = some (sampleReq 0) ∧
     c9PubReq1.id ≠ (sampleReq 0).id) :=
  ⟨⟨rfl, rfl,
    c9_current_last_distinct.1 "sip:a@h" none 300 c9RegOps c9RegReq1 (sampleReq 0) rfl rfl⟩,
   ⟨rfl, rfl,
    c9_current_last_distinct.2 "sip:a@h" "presence" "ct" none 300 c9PubOps c9PubReq1
      (sampleReq 0) rfl rfl⟩⟩

/-- C10: when a new register/publish/end supersedes an in-flight
transaction and the new request's send then raises, the supersession is
not rolled back: the method raises, the in-flight slot is left empty (not
restored to the superseded transaction), the superseded transaction has
already received its end() call, and `lastTransaction` together with the
teardown-intent flag keep their previous values. -/
theorem c10_supersession_not_rolled_back :
    (∀ (s : RegState) (c : Request) (cu : Option String) (route : String)
        (dr : Bool) (cid : String),
        s.current_request = some c →
        Registration.make_and_send_request s cu route false dr cid =
          { res := Except.error PyError.sendError,
            state := { s with current_request := none, next_id := s.next_id + 1 },
            effects := [Effect.addObserver s.next_id, Effect.endRequest c.id,
                        Effect.removeObserver s.next_id] }) ∧
    (∀ (s : PubState) (c : Request) (b : Option String) (route : String)
        (dp : Bool) (cid : String),
        s.current_request = some c →
        Publication.make_and_send_request s b route false dp cid =
          { res := Except.error PyError.sendError,
            state := { s with current_request := none, next_id := s.next_id + 1 },
            effects := [Effect.addObserver s.next_id, Effect.endRequest c.id,
                        Effect.removeObserver s.next_id] }) := by
  constructor
  · intro s c cu route dr cid h
    simp [Registration.make_and_send_request, h, Registration.reg_built_request_id]
  · intro s c b route dp cid h
    simp [Publication.make_and_send_request, h, Publication.pub_built_request_id]

/-- Witness for C10 on active states (superseded transaction has
identity 1, the new request identity 2). -/
theorem c10_supersession_not_rolled_back_witness :
    Registration.make_and_send_request sampleRegActive (some "c") "r" false true "cid" =
      { res := Except.error PyError.sendError,
        state := { sampleRegActive with current_request := none, next_id := 3 },
        effects := [Effect.addObserver 2, Effect.endRequest 1,
                    Effect.removeObserver 2] } ∧
    Publication.make_and_send_request samplePubActive (some "b") "r" false true "cid" =
      { res := Except.error PyError.sendError,
        state := { samplePubActive with current_request := none, next_id := 3 },
        effects := [Effect.addObserver 2, Effect.endRequest 1,
                    Effect.removeObserver 2] } :=
  ⟨c10_supersession_not_rolled_back.1 sampleRegActive (sampleReq 1) (some "c") "r" true "cid" rfl,
   c10_supersession_not_rolled_back.2 samplePubActive (sampleReq 1) (some "b") "r" true "cid" rfl⟩

end SipSimple
